import Mathlib

/-!
Shallow embedding of the YouTube audio downloader web service (src/app.py).

The service is a FastAPI wrapper over yt-dlp and browser_cookie3.  We embed:

* `Opts` — the yt-dlp option dictionary (a Python dict, modelled as an
  association list with in-place overwrite, `setOpt`);
* `ServerState` — the server-visible filesystem state: the set of download
  directories under temp_downloads (uuid.uuid4 is modelled as a fresh
  natural-number supply `nextId`; the generated names never collide), and the
  manual cookie file cookies/youtube_cookies.txt (`Option Nat` carrying its
  mtime, `none` when absent);
* `Oracle` — the outcome of the external libraries for one request:
  `browserAccess b` is what browser_cookie3 returns for browser `b`
  (`Except.error` when the library raises, `Except.ok n` for a list of `n`
  cookies), `browserOk b` is whether the guarded direct-browser branch in
  get_ydl_opts_with_cookies completes for `b` (its try/except guards the
  statements of the loop body), `extractInfo` the outcome of
  ydl.extract_info, `downloadErr` the outcome of ydl.download, and
  `producedName` the file (if any) matching the glob after the download;
* one Lean function per HTTP handler, returning an `EndpointResult`:
  the HTTP response, the post state, the scheduled background tasks and the
  trace of yt-dlp calls made, plus the location of the produced audio file.
-/

namespace App

/-- Values stored in a yt-dlp option dictionary (only the shapes src/app.py
stores: strings, booleans, the postprocessor list, and the
cookiesfrombrowser tuple). -/
inductive OptVal where
  | str (s : String)
  | flag (b : Bool)
  | post (codec : String) (quality : String)
  | fromBrowser (b : String)
deriving DecidableEq, Repr

/-- A Python dict of yt-dlp options, as an ordered association list. -/
abbrev Opts := List (String × OptVal)

/-- Python dict assignment d[k] = v: overwrite in place, else append. -/
def setOpt : Opts → String → OptVal → Opts
  | [], k, v => [(k, v)]
  | (k0, v0) :: rest, k, v =>
    if k0 = k then (k, v) :: rest else (k0, v0) :: setOpt rest k v

/-- Boolean list-prefix test on characters (helper for the Python
substring operator). -/
def listPrefixB : List Char → List Char → Bool
  | [], _ => true
  | _ :: _, [] => false
  | a :: as, b :: bs => a = b && listPrefixB as bs

/-- Boolean substring occurrence test on character lists. -/
def listContainsB (needle : List Char) : List Char → Bool
  | [] => listPrefixB needle []
  | c :: rest => listPrefixB needle (c :: rest) || listContainsB needle rest

/-- The Python test needle in hay on strings. -/
def strContains (hay needle : String) : Bool :=
  listContainsB needle.data hay.data

/-- The Python test s.endswith(post): post read backwards is a prefix of s
read backwards. -/
def strEndsWith (s post : String) : Bool :=
  listPrefixB post.data.reverse s.data.reverse

/-- One format entry of the extracted video info (the fields the handlers
read; the remaining per-format fields of the debug endpoint are projections
of these records and are not read by any claim). -/
structure MediaFormat where
  acodec : String
  vcodec : String
  url : Option String
deriving DecidableEq, Repr

/-- The video info dictionary returned by ydl.extract_info (the keys the
handlers read; absent keys are `none`). -/
structure VideoInfo where
  title : Option String
  duration : Option Nat
  uploader : Option String
  view_count : Option Nat
  upload_date : Option String
  age_limit : Option Nat
  availability : Option String
  formats : List MediaFormat
deriving DecidableEq, Repr

/-- Outcomes of the external libraries (yt-dlp, browser_cookie3) for one
request.  The option dictionary handed to yt-dlp does not appear here: the
oracle fixes the library outcome for the request outright. -/
structure Oracle where
  browserAccess : String → Except String Nat
  browserOk : String → Bool
  extractInfo : Except String VideoInfo
  downloadErr : Option String
  producedName : Option String

/-- Server-visible filesystem state across requests. -/
structure ServerState where
  nextId : Nat
  tempDirs : Finset Nat
  cookieFile : Option Nat
deriving DecidableEq

/-- Path string of the manual cookie file. -/
def cookiePathStr : String := "cookies/youtube_cookies.txt"

/-- The message substring the three media endpoints test for to detect a
YouTube authentication failure. -/
def signIn : String := "Sign in to confirm"

/-- The 401 detail shared by the three media endpoints. -/
def authDetail : String :=
  "YouTube requires authentication. Please extract cookies using /cookies/extract or upload them via /cookies/upload"

/-- Browser order of extract_browser_cookies_to_file (and of the status
check loop in get_cookie_status, which shares it). -/
def extractBrowsers : List String := ["firefox", "edge", "chrome", "safari"]

/-- Browser order of the direct cookiesfrombrowser fallback in
get_ydl_opts_with_cookies (chrome is skipped there). -/
def directBrowsers : List String := ["firefox", "edge", "safari"]

/-- The shared loop shape of extract_browser_cookies_to_file and the browser
check in get_cookie_status: walk the browsers, skipping one that raises or
yields no cookies, and stop successfully at the first that yields a
non-empty cookie list. -/
def browserHasCookies (o : Oracle) : List String → Bool
  | [] => false
  | b :: rest =>
    match o.browserAccess b with
    | .error _ => browserHasCookies o rest
    | .ok 0 => browserHasCookies o rest
    | .ok (_ + 1) => true

/-- extract_browser_cookies_to_file: try firefox, edge, chrome, safari in
order; on the first browser with a non-empty youtube.com cookie list, write
cookies/youtube_cookies.txt (its content is not modelled; its existence and
mtime are) and return True; if every browser raises or is empty, return
False with the filesystem untouched. -/
def extract_browser_cookies_to_file (o : Oracle) (now : Nat) (s : ServerState) :
    Bool × ServerState :=
  if browserHasCookies o extractBrowsers then
    (true, { s with cookieFile := some now })
  else
    (false, s)

/-- The last-resort loop of get_ydl_opts_with_cookies: for each browser, the
guarded body sets cookiesfrombrowser and returns; a body the try/except
catches moves on to the next browser.  Returns `none` when the loop falls
through. -/
def tryBrowsers (o : Oracle) (base_opts : Opts) : List String → Option Opts
  | [] => none
  | b :: rest =>
    if o.browserOk b then
      some (setOpt base_opts "cookiesfrombrowser" (.fromBrowser b))
    else
      tryBrowsers o base_opts rest

/-- get_ydl_opts_with_cookies: add cookie configuration to the yt-dlp
options with fallback — manual cookie file, then extraction to file, then
direct browser access, else the base options unchanged. -/
def get_ydl_opts_with_cookies (o : Oracle) (now : Nat) (base_opts : Opts)
    (use_cookies : Bool) (s : ServerState) : Opts × ServerState :=
  if !use_cookies then
    (base_opts, s)
  else if s.cookieFile.isSome then
    (setOpt base_opts "cookiefile" (.str cookiePathStr), s)
  else
    let es := extract_browser_cookies_to_file o now s
    if es.1 then
      (setOpt base_opts "cookiefile" (.str cookiePathStr), es.2)
    else
      match tryBrowsers o base_opts directBrowsers with
      | some opts => (opts, es.2)
      | none => (base_opts, es.2)

/-- The body of a POST /info, /download or /stream request (pydantic
validates format and quality against literal lists; the validated strings
are carried as-is). -/
structure AudioRequest where
  url : String
  format : String
  quality : String
  use_cookies : Bool
deriving DecidableEq, Repr

/-- One incoming HTTP request, one constructor per route of src/app.py. -/
inductive Request where
  | info (r : AudioRequest)
  | download (r : AudioRequest)
  | stream (r : AudioRequest)
  | debug (videoId : String)
  | cookieStatus
  | cookieExtract
  | cookieTroubleshoot
  | cookieUpload (filename : String)
  | cookieDelete
  | rootReq
  | health
deriving DecidableEq, Repr

/-- Calls into yt-dlp made while handling one request. -/
inductive LibCall where
  | extractInfo
  | download
deriving DecidableEq, Repr

/-- One scheduled background task: wait delaySecs seconds, then clean up
the temp directory named target. -/
structure BgTask where
  delaySecs : Nat
  target : Nat
deriving DecidableEq, Repr

/-- Client-visible HTTP responses of the handlers.  A FileResponse is
client-visible as its download filename and media type (the server-side
path is recorded separately in EndpointResult.fileInDir). -/
inductive Response where
  | message (msg : String) (path : Option String)
  | cookieStatusR (browserAvail : Bool) (manualAvail : Bool) (lastUpdated : Option Nat)
  | audioInfoR (title : String) (duration : Nat) (uploader : String)
      (viewCount : Option Nat) (uploadDate : Option String)
  | file (filename : String) (mediaType : String)
  | streamR (streamUrl : String) (title : Option String)
  | debugOk (title : Option String) (duration : Option Nat) (uploader : Option String)
      (ageLimit : Option Nat) (availability : Option String)
      (totalFormats : Nat) (audioOnlyFormats : Nat) (recommended : String)
  | debugErr (error : String) (suggestion : String)
  | troubleshootR (status : List (String × Bool × Nat × Option String))
      (issues : List String) (solutions : List String) (recommended : String)
  | rootR (msg : String) (listing : List (String × String))
  | healthR
  | httpError (status : Nat) (detail : String)
deriving DecidableEq, Repr

/-- The full outcome of handling one request. -/
structure EndpointResult where
  response : Response
  state : ServerState
  tasks : List BgTask
  calls : List LibCall
  fileInDir : Option (Nat × String)
deriving DecidableEq

/-- HTTP status of a response (200 for every non-error response). -/
def resStatus : Response → Nat
  | .httpError st _ => st
  | _ => 200

/-- Whether a response is an HTTP error. -/
def resIsError : Response → Bool
  | .httpError _ _ => true
  | _ => false

/-- The filename sanitisation of download_audio: keep alphanumeric
characters, spaces, hyphens and underscores, then strip trailing spaces
(after the filter, spaces are the only whitespace left). -/
def safeTitle (t : String) : String :=
  String.mk
    (((t.data.filter fun c => c.isAlphanum || c = ' ' || c = '-' || c = '_').reverse.dropWhile
        fun c => c = ' ').reverse)

/-- The outtmpl option string for a given fresh directory id. -/
def outTmpl (fileId : Nat) : String :=
  "temp_downloads/" ++ toString fileId ++ "/%(title)s.%(ext)s"

/-- GET /cookies/status handler. -/
def get_cookie_status (o : Oracle) (s : ServerState) : EndpointResult :=
  let manual := s.cookieFile.isSome
  let browser := browserHasCookies o extractBrowsers
  { response := .cookieStatusR browser manual s.cookieFile
    state := s, tasks := [], calls := [], fileInDir := none }

/-- POST /cookies/extract handler. -/
def extract_cookies (o : Oracle) (now : Nat) (s : ServerState) : EndpointResult :=
  let es := extract_browser_cookies_to_file o now s
  if es.1 then
    { response := .message "Cookies extracted successfully" (some cookiePathStr)
      state := es.2, tasks := [], calls := [], fileInDir := none }
  else
    { response := .httpError 500
        "Failed to extract cookies from any browser. Try uploading a cookie file manually."
      state := es.2, tasks := [], calls := [], fileInDir := none }

/-- Browser display names and browser_cookie3 functions probed by the
troubleshoot endpoint, in its order. -/
def troubleshootBrowsers : List (String × String) :=
  [("Chrome", "chrome"), ("Firefox", "firefox"), ("Edge", "edge"), ("Safari", "safari")]

/-- The probe loop of troubleshoot_cookies: per browser an entry
(name, accessible, cookie_count, error), plus the issues and solutions
accumulated when the Chrome cookie database is locked. -/
def troubleshootStatus (o : Oracle) :
    List (String × String) →
      List (String × Bool × Nat × Option String) × List String × List String
  | [] => ([], [], [])
  | (disp, key) :: rest =>
    let r := troubleshootStatus o rest
    match o.browserAccess key with
    | .ok n => ((disp, true, n, none) :: r.1, r.2.1, r.2.2)
    | .error e =>
      if strContains disp "Chrome" && strContains e "Could not copy" then
        ((disp, false, 0, some e) :: r.1,
         "Chrome cookie database is locked" :: r.2.1,
         ["Close all Chrome windows and try again",
          "Use Firefox or Edge instead",
          "Export cookies manually using browser extension"] ++ r.2.2)
      else
        ((disp, false, 0, some e) :: r.1, r.2.1, r.2.2)

/-- GET /cookies/troubleshoot handler. -/
def troubleshoot_cookies (o : Oracle) (s : ServerState) : EndpointResult :=
  let t := troubleshootStatus o troubleshootBrowsers
  { response := .troubleshootR t.1 t.2.1 t.2.2
      "Use /cookies/upload with a manually exported cookie file if automatic extraction fails"
    state := s, tasks := [], calls := [], fileInDir := none }

/-- POST /cookies/upload handler (the uploaded bytes are not modelled; the
write refreshes the cookie file and its mtime). -/
def upload_cookies (now : Nat) (filename : String) (s : ServerState) : EndpointResult :=
  if !(strEndsWith filename ".txt") then
    { response := .httpError 400 "Cookie file must be a .txt file"
      state := s, tasks := [], calls := [], fileInDir := none }
  else
    { response := .message "Cookie file uploaded successfully" (some cookiePathStr)
      state := { s with cookieFile := some now }, tasks := [], calls := [], fileInDir := none }

/-- DELETE /cookies handler. -/
def delete_cookies (s : ServerState) : EndpointResult :=
  if s.cookieFile.isSome then
    { response := .message "Cookie file deleted" none
      state := { s with cookieFile := none }, tasks := [], calls := [], fileInDir := none }
  else
    { response := .httpError 404 "No cookie file found"
      state := s, tasks := [], calls := [], fileInDir := none }

/-- POST /info handler. -/
def get_video_info (o : Oracle) (now : Nat) (req : AudioRequest) (s : ServerState) :
    EndpointResult :=
  let base : Opts := [("quiet", .flag true), ("no_warnings", .flag true)]
  let os := get_ydl_opts_with_cookies o now base req.use_cookies s
  match o.extractInfo with
  | .error m =>
    if strContains m signIn then
      { response := .httpError 401 authDetail
        state := os.2, tasks := [], calls := [.extractInfo], fileInDir := none }
    else
      { response := .httpError 400 ("Failed to extract video info: " ++ m)
        state := os.2, tasks := [], calls := [.extractInfo], fileInDir := none }
  | .ok i =>
    { response := .audioInfoR (i.title.getD "Unknown") (i.duration.getD 0)
        (i.uploader.getD "Unknown") i.view_count i.upload_date
      state := os.2, tasks := [], calls := [.extractInfo], fileInDir := none }

/-- POST /download handler. -/
def download_audio (o : Oracle) (now : Nat) (req : AudioRequest) (s : ServerState) :
    EndpointResult :=
  let file_id := s.nextId
  let s0 : ServerState := { s with nextId := s.nextId + 1 }
  let audio_quality :=
    if req.quality = "best" then "0"
    else if req.quality = "worst" then "9"
    else req.quality
  let s1 : ServerState := { s0 with tempDirs := insert file_id s0.tempDirs }
  let base : Opts :=
    [("format", .str "worst"), ("outtmpl", .str (outTmpl file_id)),
     ("postprocessors", .post req.format audio_quality),
     ("quiet", .flag false), ("no_warnings", .flag false)]
  let os := get_ydl_opts_with_cookies o now base req.use_cookies s1
  let s2 := os.2
  let sErr : ServerState :=
    if file_id ∈ s2.tempDirs then { s2 with tempDirs := s2.tempDirs.erase file_id } else s2
  match o.extractInfo with
  | .error m =>
    if strContains m signIn then
      { response := .httpError 401 authDetail
        state := sErr, tasks := [], calls := [.extractInfo], fileInDir := none }
    else
      { response := .httpError 400 ("Download failed: " ++ m)
        state := sErr, tasks := [], calls := [.extractInfo], fileInDir := none }
  | .ok i =>
    let safe := safeTitle (i.title.getD "audio")
    match o.downloadErr with
    | some m =>
      if strContains m signIn then
        { response := .httpError 401 authDetail
          state := sErr, tasks := [], calls := [.extractInfo, .download], fileInDir := none }
      else
        { response := .httpError 400 ("Download failed: " ++ m)
          state := sErr, tasks := [], calls := [.extractInfo, .download], fileInDir := none }
    | none =>
      match o.producedName with
      | none =>
        let m := "500: Download completed but file not found"
        if strContains m signIn then
          { response := .httpError 401 authDetail
            state := sErr, tasks := [], calls := [.extractInfo, .download], fileInDir := none }
        else
          { response := .httpError 400 ("Download failed: " ++ m)
            state := sErr, tasks := [], calls := [.extractInfo, .download], fileInDir := none }
      | some fname =>
        { response := .file (safe ++ "." ++ req.format) ("audio/" ++ req.format)
          state := s2, tasks := [⟨60, file_id⟩], calls := [.extractInfo, .download]
          fileInDir := some (file_id, fname) }

/-- POST /stream handler.  When the first audio-only format has no url, or
no format is audio-only, the raised HTTPException 404 is caught by the
surrounding except block and re-raised as a 400. -/
def stream_audio (o : Oracle) (now : Nat) (req : AudioRequest) (s : ServerState) :
    EndpointResult :=
  let base : Opts :=
    [("format", .str "bestaudio/best"), ("quiet", .flag true), ("no_warnings", .flag true)]
  let os := get_ydl_opts_with_cookies o now base req.use_cookies s
  match o.extractInfo with
  | .error m =>
    if strContains m signIn then
      { response := .httpError 401 authDetail
        state := os.2, tasks := [], calls := [.extractInfo], fileInDir := none }
    else
      { response := .httpError 400 ("Failed to get stream: " ++ m)
        state := os.2, tasks := [], calls := [.extractInfo], fileInDir := none }
  | .ok i =>
    let audioUrl :=
      (i.formats.find? fun f => !(f.acodec == "none") && f.vcodec == "none").bind
        fun f => f.url
    match audioUrl with
    | none =>
      let m := "404: No suitable audio stream found"
      if strContains m signIn then
        { response := .httpError 401 authDetail
          state := os.2, tasks := [], calls := [.extractInfo], fileInDir := none }
      else
        { response := .httpError 400 ("Failed to get stream: " ++ m)
          state := os.2, tasks := [], calls := [.extractInfo], fileInDir := none }
    | some u =>
      { response := .streamR u i.title
        state := os.2, tasks := [], calls := [.extractInfo], fileInDir := none }

/-- GET /debug/{video_id} handler (errors are returned as a 200 with an
error body, not as an HTTPException). -/
def debug_video (o : Oracle) (now : Nat) (_videoId : String) (s : ServerState) :
    EndpointResult :=
  let base : Opts :=
    [("quiet", .flag false), ("no_warnings", .flag false), ("dump_single_json", .flag true)]
  let os := get_ydl_opts_with_cookies o now base true s
  match o.extractInfo with
  | .error m =>
    { response := .debugErr m
        "Try a different video or check if the video is available in your region"
      state := os.2, tasks := [], calls := [.extractInfo], fileInDir := none }
  | .ok i =>
    let audioOnly := i.formats.filter fun f => f.vcodec == "none" && !(f.acodec == "none")
    { response := .debugOk i.title i.duration i.uploader i.age_limit i.availability
        i.formats.length audioOnly.length
        (if i.formats.isEmpty then "none_available" else "worst")
      state := os.2, tasks := [], calls := [.extractInfo], fileInDir := none }

/-- The endpoint listing returned by GET / . -/
def rootListing : List (String × String) :=
  [("/info", "Get video information"),
   ("/download", "Download audio file"),
   ("/stream", "Get direct stream URL"),
   ("/debug/\x7bvideo_id\x7d", "Debug video formats and info"),
   ("/cookies/status", "Check cookie availability"),
   ("/cookies/extract", "Extract cookies from browser"),
   ("/cookies/upload", "Upload cookie file"),
   ("/cookies/troubleshoot", "Troubleshoot cookie issues"),
   ("/cookies", "Delete stored cookies"),
   ("/docs", "API documentation")]

/-- GET / handler. -/
def rootEndpoint (s : ServerState) : EndpointResult :=
  { response := .rootR "YouTube Audio Downloader API" rootListing
    state := s, tasks := [], calls := [], fileInDir := none }

/-- GET /health handler. -/
def health_check (s : ServerState) : EndpointResult :=
  { response := .healthR, state := s, tasks := [], calls := [], fileInDir := none }

/-- The routes registered on the FastAPI app, as (method, path) pairs in
declaration order. -/
def routes : List (String × String) :=
  [("GET", "/cookies/status"), ("POST", "/cookies/extract"),
   ("GET", "/cookies/troubleshoot"), ("POST", "/cookies/upload"),
   ("DELETE", "/cookies"), ("GET", "/debug/\x7bvideo_id\x7d"),
   ("POST", "/info"), ("POST", "/download"), ("POST", "/stream"),
   ("GET", "/"), ("GET", "/health")]

/-- Dispatch one request to its handler. -/
def handle (o : Oracle) (now : Nat) : Request → ServerState → EndpointResult
  | .info r, s => get_video_info o now r s
  | .download r, s => download_audio o now r s
  | .stream r, s => stream_audio o now r s
  | .debug v, s => debug_video o now v s
  | .cookieStatus, s => get_cookie_status o s
  | .cookieExtract, s => extract_cookies o now s
  | .cookieTroubleshoot, s => troubleshoot_cookies o s
  | .cookieUpload f, s => upload_cookies now f s
  | .cookieDelete, s => delete_cookies s
  | .rootReq, s => rootEndpoint s
  | .health, s => health_check s

/-- cleanup_file: after its delay, remove the directory if it still
exists, else do nothing. -/
def cleanup_file (target : Nat) (s : ServerState) : ServerState :=
  if target ∈ s.tempDirs then { s with tempDirs := s.tempDirs.erase target } else s

/-- Whether the /download request runs to a successful FileResponse under
this oracle. -/
def downloadOk (o : Oracle) : Bool :=
  (match o.extractInfo with | .ok _ => true | .error _ => false)
    && o.downloadErr.isNone && o.producedName.isSome

/-- One event of a server run: an incoming request, or a scheduled
background task firing. -/
inductive Event where
  | req (rq : Request) (o : Oracle) (now : Nat)
  | fire (t : BgTask)

/-- State transition of one event. -/
def step : Event → ServerState → ServerState
  | .req rq o now, s => (handle o now rq s).state
  | .fire t, s => cleanup_file t.target s

/-- Whether an event is an incoming /download request. -/
def isDownloadEvent : Event → Bool
  | .req (.download _) _ _ => true
  | _ => false

/-- The directory ids assigned to the /download requests of an event
sequence, in order. -/
def downloadIds : List Event → ServerState → List Nat
  | [], _ => []
  | e :: rest, s =>
    (if isDownloadEvent e then [s.nextId] else []) ++ downloadIds rest (step e s)

/-- State invariant: every temp directory id was assigned by the fresh-id
supply, so the next id is unused. -/
def inv (s : ServerState) : Prop :=
  ∀ d ∈ s.tempDirs, d < s.nextId

/-- One directory entry, for the startup-time disk model. -/
structure DirEntry where
  name : String
  isDir : Bool
deriving DecidableEq, Repr

/-- Disk state at startup time: whether the two working directories exist
and the entries directly inside each. -/
structure DiskState where
  tempExists : Bool
  cookiesExists : Bool
  tempEntries : List DirEntry
  cookieEntries : List DirEntry
deriving DecidableEq, Repr

/-- Module-import-time effect: TEMP_DIR.mkdir(exist_ok=True) and
COOKIES_DIR.mkdir(exist_ok=True).  mkdir creates the directory when absent
and never touches the entries inside an existing one. -/
def moduleInit (d : DiskState) : DiskState :=
  { d with tempExists := true, cookiesExists := true }

/-- The loop body of startup_event: shutil.rmtree every entry of
TEMP_DIR.iterdir() that is a directory, keeping the rest. -/
def removeDirEntries : List DirEntry → List DirEntry
  | [] => []
  | e :: rest => if e.isDir then removeDirEntries rest else e :: removeDirEntries rest

/-- The startup_event handler registered for the startup event. -/
def startup_event (d : DiskState) : DiskState :=
  if d.tempExists then { d with tempEntries := removeDirEntries d.tempEntries } else d

/-- Everything the service runs at startup: module initialisation followed
by the startup event handler. -/
def startup (d : DiskState) : DiskState :=
  startup_event (moduleInit d)

/-- Spec-side formulation: cookie extraction succeeds when some browser in
the preference order yields a non-empty cookie list. -/
def extractSucceedsSpec (o : Oracle) : Bool :=
  extractBrowsers.any fun b =>
    match o.browserAccess b with
    | .ok (_ + 1) => true
    | _ => false

/-- Spec-side formulation: the first direct-access browser that works, in
the order firefox, edge, safari. -/
def directBrowserSpec (o : Oracle) : Option String :=
  directBrowsers.find? o.browserOk

/-- Spec-side formulation of the authentication error mapping: 401 when the
message signals a YouTube sign-in requirement, 400 otherwise. -/
def mappedStatus (m : String) : Nat :=
  if strContains m signIn then 401 else 400

/-- A video info fixture for concrete runs. -/
def infoA : VideoInfo :=
  { title := some "My Song", duration := some 100, uploader := some "Up"
    view_count := none, upload_date := none, age_limit := none
    availability := none, formats := [] }

/-- Oracle fixture for a fully successful download. -/
def oracleHappy : Oracle :=
  { browserAccess := fun _ => .error "locked", browserOk := fun _ => true
    extractInfo := .ok infoA, downloadErr := none, producedName := some "My Song.mp3" }

/-- Oracle fixture: extraction fails with a sign-in message. -/
def oracleExtractAuthFail : Oracle :=
  { oracleHappy with extractInfo := .error "Sign in to confirm you are not a bot" }

/-- Oracle fixture: extraction fails with an unrelated message. -/
def oracleExtractFail : Oracle :=
  { oracleHappy with extractInfo := .error "boom" }

/-- Oracle fixture: extraction succeeds but the download itself fails. -/
def oracleDlFail : Oracle :=
  { oracleHappy with downloadErr := some "network unreachable" }

/-- Request body fixture. -/
def reqA : AudioRequest :=
  { url := "https://youtu.be/x", format := "mp3", quality := "192", use_cookies := true }

/-- Empty initial server state. -/
def state0 : ServerState := { nextId := 0, tempDirs := ∅, cookieFile := none }

/-- Server state fixture with two live download directories. -/
def stateA : ServerState := { nextId := 2, tempDirs := {0, 1}, cookieFile := none }

/-- Server state fixture with a cookie file present. -/
def stateC : ServerState := { nextId := 0, tempDirs := ∅, cookieFile := some 7 }

theorem browserHasCookies_eq_any (o : Oracle) (bs : List String) :
    browserHasCookies o bs =
      bs.any fun b =>
        match o.browserAccess b with
        | .ok (_ + 1) => true
        | _ => false := by
  induction bs with
  | nil => rfl
  | cons b rest ih =>
    rw [List.any_cons, ← ih]
    cases h : o.browserAccess b with
    | error e => simp [browserHasCookies, h]
    | ok n =>
      cases n with
      | zero => simp [browserHasCookies, h]
      | succ k => simp [browserHasCookies, h]

theorem tryBrowsers_eq_find (o : Oracle) (base : Opts) (bs : List String) :
    tryBrowsers o base bs =
      (bs.find? o.browserOk).map
        fun b => setOpt base "cookiesfrombrowser" (.fromBrowser b) := by
  induction bs with
  | nil => rfl
  | cons b rest ih =>
    by_cases h : o.browserOk b
    · simp [tryBrowsers, h, List.find?_cons_of_pos]
    · simp [tryBrowsers, h, List.find?_cons_of_neg, ih]

/-- C1: for every base options dictionary, with use_cookies = true,
get_ydl_opts_with_cookies applies cookie sources as an ordered fallback —
if the manual cookie file exists it sets cookiefile to its path and
returns; otherwise, if extracting browser cookies to that file succeeds, it
sets cookiefile to that path and returns; otherwise it sets
cookiesfrombrowser to the first browser that works in the order firefox,
edge, safari; and if every source fails it returns the base options
unchanged. -/
theorem claim_C1 (o : Oracle) (now : Nat) (base : Opts) (s : ServerState) :
    get_ydl_opts_with_cookies o now base true s =
      if s.cookieFile.isSome then
        (setOpt base "cookiefile" (.str cookiePathStr), s)
      else if extractSucceedsSpec o then
        (setOpt base "cookiefile" (.str cookiePathStr), { s with cookieFile := some now })
      else
        match directBrowserSpec o with
        | some b => (setOpt base "cookiesfrombrowser" (.fromBrowser b), s)
        | none => (base, s) := by
  by_cases hc : s.cookieFile.isSome
  · simp [get_ydl_opts_with_cookies, hc]
  · by_cases he : extractSucceedsSpec o
    · have he2 := he
      rw [extractSucceedsSpec, ← browserHasCookies_eq_any] at he2
      simp [get_ydl_opts_with_cookies, extract_browser_cookies_to_file, hc, he, he2]
    · have he2 := he
      rw [show extractSucceedsSpec o =
            browserHasCookies o extractBrowsers from
            (browserHasCookies_eq_any o extractBrowsers).symm] at he2
      cases hf : directBrowserSpec o with
      | some b =>
        have hf2 := hf
        rw [directBrowserSpec] at hf2
        simp [get_ydl_opts_with_cookies, extract_browser_cookies_to_file, hc, he, he2,
              tryBrowsers_eq_find, hf2, hf]
      | none =>
        have hf2 := hf
        rw [directBrowserSpec] at hf2
        simp [get_ydl_opts_with_cookies, extract_browser_cookies_to_file, hc, he, he2,
              tryBrowsers_eq_find, hf2, hf]

/-- C5: the service exposes /download, /stream, the five cookie operations
(status, extract, upload, delete, troubleshoot), /info and
/debug/{video_id} as routes, and the root endpoint returns a listing naming
each of these endpoints. -/
theorem claim_C5 :
    ([("POST", "/download"), ("POST", "/stream"),
      ("GET", "/cookies/status"), ("POST", "/cookies/extract"),
      ("POST", "/cookies/upload"), ("DELETE", "/cookies"),
      ("GET", "/cookies/troubleshoot"), ("POST", "/info"),
      ("GET", "/debug/\x7bvideo_id\x7d")].all
        (fun e => routes.contains e && (rootListing.map Prod.fst).contains e.2)) = true
    ∧ ∀ (o : Oracle) (now : Nat) (s : ServerState),
        (handle o now .rootReq s).response =
          .rootR "YouTube Audio Downloader API" rootListing :=
  ⟨by decide, fun _ _ _ => rfl⟩

theorem removeDirEntries_eq_filter (l : List DirEntry) :
    removeDirEntries l = l.filter fun e => !e.isDir := by
  induction l with
  | nil => rfl
  | cons e rest ih =>
    by_cases h : e.isDir <;> simp [removeDirEntries, h, ih]

/-- C6: startup creates the temp_downloads and cookies directories if they
do not exist, deletes every directory entry directly inside temp_downloads,
and leaves the non-directory entries of temp_downloads and all contents of
the cookies directory unchanged. -/
theorem claim_C6 (d : DiskState) :
    (startup d).tempExists = true ∧ (startup d).cookiesExists = true ∧
    (startup d).cookieEntries = d.cookieEntries ∧
    (startup d).tempEntries = d.tempEntries.filter (fun e => !e.isDir) := by
  unfold startup startup_event moduleInit
  simp [removeDirEntries_eq_filter]

/-- C10: DELETE /cookies responds 404 exactly when the cookie file is
absent, in which case the state is unchanged; when the file exists the
endpoint deletes it and returns a success message. -/
theorem claim_C10 (o : Oracle) (now : Nat) (s : ServerState) :
    (resStatus (handle o now .cookieDelete s).response = 404 ↔ s.cookieFile = none)
    ∧ (handle o now .cookieDelete s).state =
        (if s.cookieFile.isSome then { s with cookieFile := none } else s)
    ∧ (s.cookieFile.isSome = true →
        (handle o now .cookieDelete s).response = .message "Cookie file deleted" none)
    ∧ (s.cookieFile = none →
        (handle o now .cookieDelete s).response = .httpError 404 "No cookie file found") := by
  cases h : s.cookieFile <;> simp [handle, delete_cookies, resStatus, h]

theorem get_ydl_tempDirs (o : Oracle) (now : Nat) (base : Opts) (uc : Bool)
    (s : ServerState) :
    (get_ydl_opts_with_cookies o now base uc s).2.tempDirs = s.tempDirs := by
  by_cases hc : s.cookieFile.isSome
  · cases uc <;> simp [get_ydl_opts_with_cookies, hc]
  · by_cases hb : browserHasCookies o extractBrowsers
    · cases uc <;>
        simp [get_ydl_opts_with_cookies, extract_browser_cookies_to_file, hc, hb]
    · cases hf : tryBrowsers o base directBrowsers <;> cases uc <;>
        simp [get_ydl_opts_with_cookies, extract_browser_cookies_to_file, hc, hb, hf]

theorem get_ydl_nextId (o : Oracle) (now : Nat) (base : Opts) (uc : Bool)
    (s : ServerState) :
    (get_ydl_opts_with_cookies o now base uc s).2.nextId = s.nextId := by
  by_cases hc : s.cookieFile.isSome
  · cases uc <;> simp [get_ydl_opts_with_cookies, hc]
  · by_cases hb : browserHasCookies o extractBrowsers
    · cases uc <;>
        simp [get_ydl_opts_with_cookies, extract_browser_cookies_to_file, hc, hb]
    · cases hf : tryBrowsers o base directBrowsers <;> cases uc <;>
        simp [get_ydl_opts_with_cookies, extract_browser_cookies_to_file, hc, hb, hf]

theorem signIn_notfound :
    strContains "500: Download completed but file not found" signIn = false := by decide

theorem download_tasks (o : Oracle) (now : Nat) (req : AudioRequest) (s : ServerState) :
    (download_audio o now req s).tasks =
      if downloadOk o then [⟨60, s.nextId⟩] else [] := by
  cases he : o.extractInfo with
  | error m =>
    by_cases hm : strContains m signIn <;> simp [download_audio, downloadOk, he, hm]
  | ok i =>
    cases hd : o.downloadErr with
    | some m =>
      by_cases hm : strContains m signIn <;>
        simp [download_audio, downloadOk, he, hd, hm]
    | none =>
      cases hp : o.producedName with
      | none => simp [download_audio, downloadOk, he, hd, hp, signIn_notfound]
      | some f => simp [download_audio, downloadOk, he, hd, hp]

theorem download_state_char (o : Oracle) (now : Nat) (req : AudioRequest)
    (s : ServerState) :
    (download_audio o now req s).state.nextId = s.nextId + 1 ∧
    (download_audio o now req s).state.tempDirs =
      (if downloadOk o then insert s.nextId s.tempDirs
       else (insert s.nextId s.tempDirs).erase s.nextId) := by
  cases he : o.extractInfo with
  | error m =>
    by_cases hm : strContains m signIn <;>
      simp [download_audio, downloadOk, he, hm, get_ydl_tempDirs, get_ydl_nextId]
  | ok i =>
    cases hd : o.downloadErr with
    | some m =>
      by_cases hm : strContains m signIn <;>
        simp [download_audio, downloadOk, he, hd, hm, get_ydl_tempDirs, get_ydl_nextId]
    | none =>
      cases hp : o.producedName with
      | none =>
        simp [download_audio, downloadOk, he, hd, hp, signIn_notfound,
              get_ydl_tempDirs, get_ydl_nextId]
      | some f =>
        simp [download_audio, downloadOk, he, hd, hp, get_ydl_tempDirs, get_ydl_nextId]

theorem download_calls (o : Oracle) (now : Nat) (req : AudioRequest) (s : ServerState) :
    (download_audio o now req s).calls =
      (match o.extractInfo with
       | .error _ => [.extractInfo]
       | .ok _ => [.extractInfo, .download]) := by
  cases he : o.extractInfo with
  | error m =>
    by_cases hm : strContains m signIn <;> simp [download_audio, he, hm]
  | ok i =>
    cases hd : o.downloadErr with
    | some m =>
      by_cases hm : strContains m signIn <;> simp [download_audio, he, hd, hm]
    | none =>
      cases hp : o.producedName with
      | none => simp [download_audio, he, hd, hp, signIn_notfound]
      | some f => simp [download_audio, he, hd, hp]

theorem download_isError (o : Oracle) (now : Nat) (req : AudioRequest) (s : ServerState) :
    resIsError (download_audio o now req s).response = !downloadOk o := by
  cases he : o.extractInfo with
  | error m =>
    by_cases hm : strContains m signIn <;>
      simp [download_audio, downloadOk, resIsError, he, hm]
  | ok i =>
    cases hd : o.downloadErr with
    | some m =>
      by_cases hm : strContains m signIn <;>
        simp [download_audio, downloadOk, resIsError, he, hd, hm]
    | none =>
      cases hp : o.producedName with
      | none =>
        simp [download_audio, downloadOk, resIsError, he, hd, hp, signIn_notfound]
      | some f => simp [download_audio, downloadOk, resIsError, he, hd, hp]

theorem handle_tasks (o : Oracle) (now : Nat) (rq : Request) (s : ServerState) :
    (handle o now rq s).tasks =
      (match rq with
       | .download _ => if downloadOk o then [⟨60, s.nextId⟩] else []
       | _ => []) := by
  cases rq with
  | download r => simpa [handle] using download_tasks o now r s
  | info r =>
    cases he : o.extractInfo with
    | error m => simp only [handle, get_video_info, he]; split <;> rfl
    | ok i => simp [handle, get_video_info, he]
  | stream r =>
    cases he : o.extractInfo with
    | error m => simp only [handle, stream_audio, he]; split <;> rfl
    | ok i =>
      cases hu : (i.formats.find? fun f => !(f.acodec == "none") && f.vcodec == "none").bind
          (fun f => f.url) with
      | none => simp only [handle, stream_audio, he, hu]; split <;> rfl
      | some u => simp [handle, stream_audio, he, hu]
  | debug v => cases he : o.extractInfo <;> simp [handle, debug_video, he]
  | cookieStatus => rfl
  | cookieExtract =>
    by_cases hb : (extract_browser_cookies_to_file o now s).1 <;>
      simp [handle, extract_cookies, hb]
  | cookieTroubleshoot => rfl
  | cookieUpload f =>
    by_cases hf : strEndsWith f ".txt" <;> simp [handle, upload_cookies, hf]
  | cookieDelete =>
    by_cases hc : s.cookieFile.isSome <;> simp [handle, delete_cookies, hc]
  | rootReq => rfl
  | health => rfl

theorem info_calls (o : Oracle) (now : Nat) (req : AudioRequest) (s : ServerState) :
    (get_video_info o now req s).calls = [.extractInfo] := by
  cases he : o.extractInfo with
  | error m => simp only [get_video_info, he]; split <;> rfl
  | ok i => simp [get_video_info, he]

theorem stream_calls (o : Oracle) (now : Nat) (req : AudioRequest) (s : ServerState) :
    (stream_audio o now req s).calls = [.extractInfo] := by
  cases he : o.extractInfo with
  | error m => simp only [stream_audio, he]; split <;> rfl
  | ok i =>
    cases hu : (i.formats.find? fun f => !(f.acodec == "none") && f.vcodec == "none").bind
        (fun f => f.url) with
    | none => simp only [stream_audio, he, hu]; split <;> rfl
    | some u => simp [stream_audio, he, hu]

theorem info_resp_err (o : Oracle) (now : Nat) (req : AudioRequest) (s : ServerState)
    (m : String) (he : o.extractInfo = .error m) :
    (get_video_info o now req s).response =
      .httpError (mappedStatus m)
        (if strContains m signIn then authDetail
         else "Failed to extract video info: " ++ m) := by
  by_cases hm : strContains m signIn <;> simp [get_video_info, mappedStatus, he, hm]

theorem stream_resp_err (o : Oracle) (now : Nat) (req : AudioRequest) (s : ServerState)
    (m : String) (he : o.extractInfo = .error m) :
    (stream_audio o now req s).response =
      .httpError (mappedStatus m)
        (if strContains m signIn then authDetail else "Failed to get stream: " ++ m) := by
  by_cases hm : strContains m signIn <;> simp [stream_audio, mappedStatus, he, hm]

theorem download_resp_err (o : Oracle) (now : Nat) (req : AudioRequest) (s : ServerState)
    (m : String) (he : o.extractInfo = .error m) :
    (download_audio o now req s).response =
      .httpError (mappedStatus m)
        (if strContains m signIn then authDetail else "Download failed: " ++ m) := by
  by_cases hm : strContains m signIn <;> simp [download_audio, mappedStatus, he, hm]

theorem download_resp_dlerr (o : Oracle) (now : Nat) (req : AudioRequest)
    (s : ServerState) (m : String) (i : VideoInfo)
    (he : o.extractInfo = .ok i) (hd : o.downloadErr = some m) :
    (download_audio o now req s).response =
      .httpError (mappedStatus m)
        (if strContains m signIn then authDetail else "Download failed: " ++ m) := by
  by_cases hm : strContains m signIn <;>
    simp [download_audio, mappedStatus, he, hd, hm]

theorem extract_tempDirs (o : Oracle) (now : Nat) (s : ServerState) :
    (extract_browser_cookies_to_file o now s).2.tempDirs = s.tempDirs := by
  unfold extract_browser_cookies_to_file; split <;> rfl

theorem extract_nextId (o : Oracle) (now : Nat) (s : ServerState) :
    (extract_browser_cookies_to_file o now s).2.nextId = s.nextId := by
  unfold extract_browser_cookies_to_file; split <;> rfl

theorem handle_nextId (o : Oracle) (now : Nat) (rq : Request) (s : ServerState) :
    (handle o now rq s).state.nextId =
      (match rq with | .download _ => s.nextId + 1 | _ => s.nextId) := by
  cases rq with
  | download r => simpa [handle] using (download_state_char o now r s).1
  | info r =>
    cases he : o.extractInfo with
    | error m =>
      simp only [handle, get_video_info, he]; split <;> simp [get_ydl_nextId]
    | ok i => simp [handle, get_video_info, he, get_ydl_nextId]
  | stream r =>
    cases he : o.extractInfo with
    | error m =>
      simp only [handle, stream_audio, he]; split <;> simp [get_ydl_nextId]
    | ok i =>
      cases hu : (i.formats.find? fun f => !(f.acodec == "none") && f.vcodec == "none").bind
          (fun f => f.url) with
      | none => simp only [handle, stream_audio, he, hu]; split <;> simp [get_ydl_nextId]
      | some u => simp [handle, stream_audio, he, hu, get_ydl_nextId]
  | debug v => cases he : o.extractInfo <;> simp [handle, debug_video, he, get_ydl_nextId]
  | cookieStatus => rfl
  | cookieExtract =>
    by_cases hb : (extract_browser_cookies_to_file o now s).1 <;>
      simp [handle, extract_cookies, hb, extract_nextId]
  | cookieTroubleshoot => rfl
  | cookieUpload f =>
    by_cases hf : strEndsWith f ".txt" <;> simp [handle, upload_cookies, hf]
  | cookieDelete =>
    by_cases hc : s.cookieFile.isSome <;> simp [handle, delete_cookies, hc]
  | rootReq => rfl
  | health => rfl

theorem handle_tempDirs (o : Oracle) (now : Nat) (rq : Request) (s : ServerState) :
    (handle o now rq s).state.tempDirs =
      (match rq with
       | .download _ =>
         if downloadOk o then insert s.nextId s.tempDirs
         else (insert s.nextId s.tempDirs).erase s.nextId
       | _ => s.tempDirs) := by
  cases rq with
  | download r => simpa [handle] using (download_state_char o now r s).2
  | info r =>
    cases he : o.extractInfo with
    | error m =>
      simp only [handle, get_video_info, he]; split <;> simp [get_ydl_tempDirs]
    | ok i => simp [handle, get_video_info, he, get_ydl_tempDirs]
  | stream r =>
    cases he : o.extractInfo with
    | error m =>
      simp only [handle, stream_audio, he]; split <;> simp [get_ydl_tempDirs]
    | ok i =>
      cases hu : (i.formats.find? fun f => !(f.acodec == "none") && f.vcodec == "none").bind
          (fun f => f.url) with
      | none => simp only [handle, stream_audio, he, hu]; split <;> simp [get_ydl_tempDirs]
      | some u => simp [handle, stream_audio, he, hu, get_ydl_tempDirs]
  | debug v => cases he : o.extractInfo <;> simp [handle, debug_video, he, get_ydl_tempDirs]
  | cookieStatus => rfl
  | cookieExtract =>
    by_cases hb : (extract_browser_cookies_to_file o now s).1 <;>
      simp [handle, extract_cookies, hb, extract_tempDirs]
  | cookieTroubleshoot => rfl
  | cookieUpload f =>
    by_cases hf : strEndsWith f ".txt" <;> simp [handle, upload_cookies, hf]
  | cookieDelete =>
    by_cases hc : s.cookieFile.isSome <;> simp [handle, delete_cookies, hc]
  | rootReq => rfl
  | health => rfl

theorem download_fileInDir (o : Oracle) (now : Nat) (req : AudioRequest) (s : ServerState) :
    (download_audio o now req s).fileInDir =
      (if downloadOk o then o.producedName.map (fun f => (s.nextId, f)) else none) := by
  cases he : o.extractInfo with
  | error m =>
    by_cases hm : strContains m signIn <;> simp [download_audio, downloadOk, he, hm]
  | ok i =>
    cases hd : o.downloadErr with
    | some m =>
      by_cases hm : strContains m signIn <;>
        simp [download_audio, downloadOk, he, hd, hm]
    | none =>
      cases hp : o.producedName with
      | none => simp [download_audio, downloadOk, he, hd, hp, signIn_notfound]
      | some f => simp [download_audio, downloadOk, he, hd, hp]

theorem download_dirs_fail (o : Oracle) (now : Nat) (r : AudioRequest) (s : ServerState)
    (hnm : s.nextId ∉ s.tempDirs) (hf : downloadOk o = false) :
    (download_audio o now r s).state.tempDirs = s.tempDirs := by
  have h := (download_state_char o now r s).2
  rw [h]
  simp [hf, Finset.erase_insert_eq_erase, Finset.erase_eq_of_not_mem hnm]

theorem step_nextId_mono (e : Event) (s : ServerState) : s.nextId ≤ (step e s).nextId := by
  cases e with
  | req rq o now =>
    have h := handle_nextId o now rq s
    simp only [step]
    rw [h]
    cases rq <;> simp
  | fire t =>
    simp only [step, cleanup_file]
    split <;> simp

theorem inv_step (e : Event) (s : ServerState) (hs : inv s) : inv (step e s) := by
  cases e with
  | req rq o now =>
    intro d hd
    simp only [step] at hd ⊢
    rw [handle_tempDirs] at hd
    rw [handle_nextId]
    cases rq with
    | download r =>
      have hd2 : d ∈ insert s.nextId s.tempDirs := by
        by_cases hok : downloadOk o
        · simpa [hok] using hd
        · have hd3 : ¬d = s.nextId ∧ d ∈ s.tempDirs := by simpa [hok] using hd
          exact Finset.mem_insert_of_mem hd3.2
      rcases Finset.mem_insert.mp hd2 with h | h
      · simp [h]
      · exact Nat.lt_succ_of_lt (hs d h)
    | info r => exact hs d hd
    | stream r => exact hs d hd
    | debug v => exact hs d hd
    | cookieStatus => exact hs d hd
    | cookieExtract => exact hs d hd
    | cookieTroubleshoot => exact hs d hd
    | cookieUpload f => exact hs d hd
    | cookieDelete => exact hs d hd
    | rootReq => exact hs d hd
    | health => exact hs d hd
  | fire t =>
    intro d hd
    simp only [step, cleanup_file] at hd ⊢
    by_cases hmem : t.target ∈ s.tempDirs
    · rw [if_pos hmem] at hd ⊢
      exact hs d (Finset.mem_of_mem_erase (by simpa using hd))
    · rw [if_neg hmem] at hd ⊢
      exact hs d hd

theorem step_preserves_other (e : Event) (s : ServerState) (d : Nat)
    (hs : inv s) (hd : d ∈ s.tempDirs) :
    d ∈ (step e s).tempDirs ∨ ∃ t, e = .fire t ∧ t.target = d := by
  cases e with
  | req rq o now =>
    left
    simp only [step]
    rw [handle_tempDirs]
    cases rq with
    | download r =>
      have hne : d ≠ s.nextId := fun h => absurd (hs d hd) (by simp [h])
      by_cases hok : downloadOk o
      · simp only [hok, if_pos]
        exact Finset.mem_insert_of_mem hd
      · simp only [hok, Bool.false_eq_true, if_neg, not_false_iff]
        exact Finset.mem_erase.mpr ⟨hne, Finset.mem_insert_of_mem hd⟩
    | info r => exact hd
    | stream r => exact hd
    | debug v => exact hd
    | cookieStatus => exact hd
    | cookieExtract => exact hd
    | cookieTroubleshoot => exact hd
    | cookieUpload f => exact hd
    | cookieDelete => exact hd
    | rootReq => exact hd
    | health => exact hd
  | fire t =>
    by_cases ht : t.target = d
    · exact Or.inr ⟨t, rfl, ht⟩
    · left
      simp only [step, cleanup_file]
      split
      · simpa using Finset.mem_erase.mpr ⟨fun h => ht h.symm, hd⟩
      · exact hd

theorem step_nextId_download (e : Event) (s : ServerState)
    (hde : isDownloadEvent e = true) : (step e s).nextId = s.nextId + 1 := by
  cases e with
  | req rq o now =>
    cases rq with
    | download r =>
      simp only [step]
      rw [handle_nextId]
    | info r => simp [isDownloadEvent] at hde
    | stream r => simp [isDownloadEvent] at hde
    | debug v => simp [isDownloadEvent] at hde
    | cookieStatus => simp [isDownloadEvent] at hde
    | cookieExtract => simp [isDownloadEvent] at hde
    | cookieTroubleshoot => simp [isDownloadEvent] at hde
    | cookieUpload f => simp [isDownloadEvent] at hde
    | cookieDelete => simp [isDownloadEvent] at hde
    | rootReq => simp [isDownloadEvent] at hde
    | health => simp [isDownloadEvent] at hde
  | fire t => simp [isDownloadEvent] at hde

theorem downloadIds_lb (evs : List Event) (s : ServerState) :
    ∀ x ∈ downloadIds evs s, s.nextId ≤ x := by
  induction evs generalizing s with
  | nil => simp [downloadIds]
  | cons e rest ih =>
    intro x hx
    rw [downloadIds] at hx
    rcases List.mem_append.mp hx with h | h
    · by_cases hde : isDownloadEvent e
      · rw [if_pos hde] at h
        simp at h
        simp [h]
      · rw [if_neg hde] at h
        simp at h
    · exact le_trans (step_nextId_mono e s) (ih (step e s) x h)

theorem downloadIds_pairwise (evs : List Event) (s : ServerState) :
    (downloadIds evs s).Pairwise (· ≠ ·) := by
  induction evs generalizing s with
  | nil => simp [downloadIds]
  | cons e rest ih =>
    rw [downloadIds]
    by_cases hde : isDownloadEvent e
    · rw [if_pos hde]
      simp only [List.singleton_append]
      refine List.Pairwise.cons (fun y hy => ?_) (ih _)
      have h1 := downloadIds_lb rest (step e s) y hy
      have h2 : s.nextId < (step e s).nextId := by
        rw [step_nextId_download e s hde]
        simp
      exact Nat.ne_of_lt (lt_of_lt_of_le h2 h1)
    · rw [if_neg hde]
      simpa using ih (step e s)

theorem invA : inv stateA := by
  intro d hd
  have hd2 : d = 0 ∨ d = 1 := by simpa [stateA] using hd
  rcases hd2 with h | h <;> simp [h, stateA]

theorem signIn_404 :
    strContains "404: No suitable audio stream found" signIn = false := by decide

theorem info_resp_const (o : Oracle) (now : Nat) (req : AudioRequest)
    (s1 s2 : ServerState) :
    (get_video_info o now req s1).response = (get_video_info o now req s2).response := by
  cases he : o.extractInfo with
  | error m => by_cases hm : strContains m signIn <;> simp [get_video_info, he, hm]
  | ok i => simp [get_video_info, he]

theorem stream_resp_const (o : Oracle) (now : Nat) (req : AudioRequest)
    (s1 s2 : ServerState) :
    (stream_audio o now req s1).response = (stream_audio o now req s2).response := by
  cases he : o.extractInfo with
  | error m => by_cases hm : strContains m signIn <;> simp [stream_audio, he, hm]
  | ok i =>
    cases hu : (i.formats.find? fun f => !(f.acodec == "none") && f.vcodec == "none").bind
        (fun f => f.url) with
    | none => simp [stream_audio, he, hu, signIn_404]
    | some u => simp [stream_audio, he, hu]

theorem download_resp_const (o : Oracle) (now : Nat) (req : AudioRequest)
    (s1 s2 : ServerState) :
    (download_audio o now req s1).response = (download_audio o now req s2).response := by
  cases he : o.extractInfo with
  | error m => by_cases hm : strContains m signIn <;> simp [download_audio, he, hm]
  | ok i =>
    cases hd : o.downloadErr with
    | some m =>
      by_cases hm : strContains m signIn <;> simp [download_audio, he, hd, hm]
    | none =>
      cases hp : o.producedName with
      | none => simp [download_audio, he, hd, hp, signIn_notfound]
      | some f => simp [download_audio, he, hd, hp]

theorem debug_resp_const (o : Oracle) (now : Nat) (v : String) (s1 s2 : ServerState) :
    (debug_video o now v s1).response = (debug_video o now v s2).response := by
  cases he : o.extractInfo <;> simp [debug_video, he]

theorem extract_resp_const (o : Oracle) (now : Nat) (s1 s2 : ServerState) :
    (extract_cookies o now s1).response = (extract_cookies o now s2).response := by
  by_cases hb : browserHasCookies o extractBrowsers <;>
    simp [extract_cookies, extract_browser_cookies_to_file, hb]

theorem upload_resp_const (now : Nat) (f : String) (s1 s2 : ServerState) :
    (upload_cookies now f s1).response = (upload_cookies now f s2).response := by
  by_cases hf : strEndsWith f ".txt" <;> simp [upload_cookies, hf]

/-- C2: the only background concurrency is the delayed cleanup — every
successful /download schedules exactly one cleanup task, with a 60 second
delay, targeting its own output directory; no other request schedules any
task; and a fired cleanup task removes its directory when it still exists
and does nothing otherwise. -/
theorem claim_C2 :
    (∀ (o : Oracle) (now : Nat) (rq : Request) (s : ServerState),
       (handle o now rq s).tasks =
         (match rq with
          | .download _ => if downloadOk o then [⟨60, s.nextId⟩] else []
          | _ => []))
    ∧ (∀ (t : Nat) (s : ServerState), t ∈ s.tempDirs →
         cleanup_file t s = { s with tempDirs := s.tempDirs.erase t } ∧
           t ∉ (cleanup_file t s).tempDirs)
    ∧ (∀ (t : Nat) (s : ServerState), t ∉ s.tempDirs → cleanup_file t s = s) := by
  refine ⟨handle_tasks, fun t s ht => ⟨?_, ?_⟩, fun t s ht => ?_⟩
  · simp [cleanup_file, ht]
  · simp [cleanup_file, ht, Finset.not_mem_erase]
  · simp [cleanup_file, ht]

/-- Witness for C2: firing a cleanup task on a directory that exists
removes it, and firing one on an absent directory changes nothing. -/
theorem claim_C2_witness :
    (cleanup_file 0 stateA = { stateA with tempDirs := stateA.tempDirs.erase 0 } ∧
       0 ∉ (cleanup_file 0 stateA).tempDirs)
    ∧ cleanup_file 5 stateA = stateA :=
  ⟨claim_C2.2.1 0 stateA (by decide), claim_C2.2.2 5 stateA (by decide)⟩

/-- C7: no retry — /info and /stream call extract_info exactly once and
never download; /download calls extract_info exactly once and download at
most once (only after a successful extraction); an extraction failure
aborts the request with an error response and no further library call, and
a download failure is reported as an error rather than reattempted. -/
theorem claim_C7 (o : Oracle) (now : Nat) (r : AudioRequest) (s : ServerState) :
    (handle o now (.info r) s).calls = [.extractInfo]
    ∧ (handle o now (.stream r) s).calls = [.extractInfo]
    ∧ (handle o now (.download r) s).calls =
        (match o.extractInfo with
         | .error _ => [.extractInfo]
         | .ok _ => [.extractInfo, .download])
    ∧ (∀ m, o.extractInfo = .error m →
         resIsError (handle o now (.info r) s).response = true
         ∧ resIsError (handle o now (.stream r) s).response = true
         ∧ resIsError (handle o now (.download r) s).response = true
         ∧ (handle o now (.download r) s).calls = [.extractInfo])
    ∧ (∀ m, o.downloadErr = some m →
         resIsError (handle o now (.download r) s).response = true
         ∨ (handle o now (.download r) s).calls = [.extractInfo]) := by
  refine ⟨by simp [handle, info_calls], by simp [handle, stream_calls],
          by simp [handle, download_calls], fun m he => ?_, fun m hd => ?_⟩
  · refine ⟨?_, ?_, ?_, ?_⟩
    · simp [handle, info_resp_err o now r s m he, resIsError]
    · simp [handle, stream_resp_err o now r s m he, resIsError]
    · simp [handle, download_resp_err o now r s m he, resIsError]
    · simp [handle, download_calls, he]
  · cases he : o.extractInfo with
    | error m2 => exact Or.inr (by simp [handle, download_calls, he])
    | ok i => exact Or.inl (by simp [handle, download_isError, downloadOk, he, hd])

/-- Witness for C7: with a failing extraction the download endpoint makes
no download call, and with a failing download the response is an error. -/
theorem claim_C7_witness :
    (handle oracleExtractFail 0 (.download reqA) state0).calls = [.extractInfo]
    ∧ (resIsError (handle oracleDlFail 0 (.download reqA) state0).response = true
       ∨ (handle oracleDlFail 0 (.download reqA) state0).calls = [.extractInfo]) :=
  ⟨((claim_C7 oracleExtractFail 0 reqA state0).2.2.2.1 "boom" rfl).2.2.2,
   (claim_C7 oracleDlFail 0 reqA state0).2.2.2.2 "network unreachable" rfl⟩

/-- C8: error atomicity of /download — when the download fails for any
reason after creating its fresh output directory, that directory is
removed before the HTTP error is returned: the final state has no new
entry under temp_downloads, the client receives an HTTP error, and no
cleanup task is scheduled. -/
theorem claim_C8 (o : Oracle) (now : Nat) (r : AudioRequest) (s : ServerState)
    (hs : inv s) (hf : downloadOk o = false) :
    (handle o now (.download r) s).state.tempDirs = s.tempDirs
    ∧ resIsError (handle o now (.download r) s).response = true
    ∧ (handle o now (.download r) s).tasks = [] := by
  have hnm : s.nextId ∉ s.tempDirs := fun h => lt_irrefl _ (hs _ h)
  refine ⟨?_, ?_, ?_⟩
  · have h := (download_state_char o now r s).2
    simp [handle, h, hf, Finset.erase_insert_eq_erase, Finset.erase_eq_of_not_mem hnm]
  · simp [handle, download_isError, hf]
  · simp [handle, download_tasks, hf]

/-- Witness for C8: a concrete failed download from a state with two live
directories leaves the directory set unchanged and reports an error. -/
theorem claim_C8_witness :
    (handle oracleExtractFail 0 (.download reqA) stateA).state.tempDirs = stateA.tempDirs
    ∧ resIsError (handle oracleExtractFail 0 (.download reqA) stateA).response = true :=
  ⟨(claim_C8 oracleExtractFail 0 reqA stateA invA rfl).1,
   (claim_C8 oracleExtractFail 0 reqA stateA invA rfl).2.1⟩

/-- C9: uniform authentication error mapping — for /info, /download and
/stream, an extraction failure whose message contains the sign-in marker
yields HTTP status 401 and any other extraction or download failure yields
HTTP status 400. -/
theorem claim_C9 (o : Oracle) (now : Nat) (r : AudioRequest) (s : ServerState)
    (m : String) :
    (o.extractInfo = .error m →
       resStatus (handle o now (.info r) s).response = mappedStatus m
       ∧ resStatus (handle o now (.stream r) s).response = mappedStatus m
       ∧ resStatus (handle o now (.download r) s).response = mappedStatus m)
    ∧ (∀ i : VideoInfo, o.extractInfo = .ok i → o.downloadErr = some m →
       resStatus (handle o now (.download r) s).response = mappedStatus m) := by
  constructor
  · intro he
    refine ⟨?_, ?_, ?_⟩
    · simp [handle, info_resp_err o now r s m he, resStatus]
    · simp [handle, stream_resp_err o now r s m he, resStatus]
    · simp [handle, download_resp_err o now r s m he, resStatus]
  · intro i he hd
    simp [handle, download_resp_dlerr o now r s m i he hd, resStatus]

/-- Witness for C9: a sign-in extraction failure maps to 401 on /info, and
a plain download failure maps to 400 on /download. -/
theorem claim_C9_witness :
    resStatus (handle oracleExtractAuthFail 0 (.info reqA) state0).response = 401
    ∧ resStatus (handle oracleDlFail 0 (.download reqA) state0).response = 400 := by
  constructor
  · have h := ((claim_C9 oracleExtractAuthFail 0 reqA state0
        "Sign in to confirm you are not a bot").1 rfl).1
    rw [h]; decide
  · have h := (claim_C9 oracleDlFail 0 reqA state0 "network unreachable").2 infoA rfl rfl
    rw [h]; decide

/-- C3: each /download request takes a fresh directory id never colliding
with a live directory, bumps the fresh-id supply, on success places the
downloaded audio file inside that directory and leaves the directory live,
and on failure removes the directory immediately; the directory ids of
distinct download requests are pairwise distinct over any event sequence;
the freshness invariant is preserved by every event; and a live directory
stays live across every event except the firing of a cleanup task
targeting it. -/
theorem claim_C3 :
    (∀ (o : Oracle) (now : Nat) (r : AudioRequest) (s : ServerState), inv s →
       s.nextId ∉ s.tempDirs
       ∧ (handle o now (.download r) s).state.nextId = s.nextId + 1
       ∧ (downloadOk o = true →
            s.nextId ∈ (handle o now (.download r) s).state.tempDirs
            ∧ (handle o now (.download r) s).fileInDir =
                o.producedName.map fun f => (s.nextId, f))
       ∧ (downloadOk o = false →
            (handle o now (.download r) s).state.tempDirs = s.tempDirs))
    ∧ (∀ (e : Event) (s : ServerState), inv s → inv (step e s))
    ∧ (∀ (e : Event) (s : ServerState) (d : Nat), inv s → d ∈ s.tempDirs →
         d ∈ (step e s).tempDirs ∨ ∃ t, e = .fire t ∧ t.target = d)
    ∧ (∀ (evs : List Event) (s : ServerState),
         (downloadIds evs s).Pairwise (· ≠ ·)) := by
  refine ⟨fun o now r s hs => ?_, inv_step, step_preserves_other, downloadIds_pairwise⟩
  have hnm : s.nextId ∉ s.tempDirs := fun h => lt_irrefl _ (hs _ h)
  refine ⟨hnm, ?_, fun hok => ⟨?_, ?_⟩, fun hf => ?_⟩
  · simpa [handle] using (download_state_char o now r s).1
  · have h := (download_state_char o now r s).2
    rw [show handle o now (.download r) s = download_audio o now r s from rfl, h]
    simp [hok]
  · rw [show handle o now (.download r) s = download_audio o now r s from rfl,
        download_fileInDir]
    simp [hok]
  · rw [show handle o now (.download r) s = download_audio o now r s from rfl]
    exact download_dirs_fail o now r s hnm hf

/-- Witness for C3: a concrete successful download from a state with two
live directories takes the fresh id, the invariant survives a cleanup
firing, a cleanup aimed at directory 1 leaves directory 0 alive, and an
empty event list has distinct download ids. -/
theorem claim_C3_witness :
    stateA.nextId ∉ stateA.tempDirs
    ∧ (handle oracleHappy 0 (.download reqA) stateA).state.nextId = stateA.nextId + 1
    ∧ stateA.nextId ∈ (handle oracleHappy 0 (.download reqA) stateA).state.tempDirs
    ∧ inv (step (.fire ⟨60, 1⟩) stateA)
    ∧ (0 ∈ (step (.fire ⟨60, 1⟩) stateA).tempDirs
        ∨ ∃ t, (Event.fire ⟨60, 1⟩) = .fire t ∧ t.target = 0)
    ∧ (downloadIds [] stateA).Pairwise (· ≠ ·) := by
  have h1 := claim_C3.1 oracleHappy 0 reqA stateA invA
  exact ⟨h1.1, h1.2.1, (h1.2.2.1 rfl).1, claim_C3.2.1 _ stateA invA,
         claim_C3.2.2.1 _ stateA 0 invA (by decide), claim_C3.2.2.2 [] stateA⟩

/-- C4 counterexample: the response to DELETE /cookies depends on whether a
previous /cookies/upload request ran, so the claim that the response to a
second request is unaffected by state written by a first request is false
on the code. -/
theorem claim_C4_counterexample :
    (handle oracleHappy 5 .cookieDelete
        (handle oracleHappy 3 (.cookieUpload "c.txt") state0).state).response ≠
    (handle oracleHappy 5 .cookieDelete state0).response := by decide

/-- C4 (amended): apart from the cookie file cookies/youtube_cookies.txt —
which is written by upload and extraction and read back by later requests —
the response to a request is unaffected by state written by earlier
requests: two server states that agree on the cookie file produce the same
response for every request under the same library outcomes. -/
theorem claim_C4 (o : Oracle) (now : Nat) (rq : Request) (s1 s2 : ServerState)
    (h : s1.cookieFile = s2.cookieFile) :
    (handle o now rq s1).response = (handle o now rq s2).response := by
  cases rq with
  | info r => exact info_resp_const o now r s1 s2
  | download r => exact download_resp_const o now r s1 s2
  | stream r => exact stream_resp_const o now r s1 s2
  | debug v => exact debug_resp_const o now v s1 s2
  | cookieStatus => simp [handle, get_cookie_status, h]
  | cookieExtract => exact extract_resp_const o now s1 s2
  | cookieTroubleshoot => rfl
  | cookieUpload f => exact upload_resp_const now f s1 s2
  | cookieDelete =>
    cases hc : s2.cookieFile with
    | none => simp [handle, delete_cookies, h, hc]
    | some v => simp [handle, delete_cookies, h, hc]
  | rootReq => rfl
  | health => rfl

/-- Witness for C4 (amended): two states that differ in their download
directories and fresh-id counter but agree on the cookie file give the
same /cookies/status response. -/
theorem claim_C4_witness :
    (handle oracleHappy 0 .cookieStatus stateA).response =
      (handle oracleHappy 0 .cookieStatus state0).response :=
  claim_C4 oracleHappy 0 .cookieStatus stateA state0 rfl

/-- Witness for C10: a concrete deletion with the file present and a
concrete 404 with the file absent. -/
theorem claim_C10_witness :
    (handle oracleHappy 0 .cookieDelete stateC).response = .message "Cookie file deleted" none
    ∧ (handle oracleHappy 0 .cookieDelete state0).response =
        .httpError 404 "No cookie file found" :=
  ⟨(claim_C10 oracleHappy 0 stateC).2.2.1 rfl,
   (claim_C10 oracleHappy 0 state0).2.2.2 rfl⟩

end App

